import Mathlib

/-!
Verification of `synth.py` (google/pprof-nodejs).

The script's module body (after the three imports) is:

  common_templates = gcp.CommonTemplates()        -- line 5
  logging.basicConfig(level=logging.DEBUG)        -- line 6
  templates = common_templates.node_library()     -- line 7
  s.copy(templates / ".kokoro")                   -- line 8

We embed the script in two complementary ways:
1. a trace semantics (`runSynth`) over an environment `Env` that models the
   outcomes of the three external-library calls (provider construction,
   template rendering, copy), recording each call as an `Event` and
   propagating the first raised exception as an `Except.error`;
2. a syntactic statement list (`moduleBody`) over a statement AST `Stmt`
   (which also has branching/loop/try constructors, so that straight-line
   claims are not vacuous), for claims about statement count and
   variable references.
-/

namespace logging

/-- Python `logging.NOTSET` constant. -/
def NOTSET : Nat := 0

/-- Python `logging.DEBUG` constant, the level passed on line 6 of `synth.py`. -/
def DEBUG : Nat := 10

/-- Python `logging.INFO` constant. -/
def INFO : Nat := 20

/-- Python `logging.WARNING` constant. -/
def WARNING : Nat := 30

/-- Python `logging.ERROR` constant. -/
def ERROR : Nat := 40

/-- Python `logging.CRITICAL` constant. -/
def CRITICAL : Nat := 50

end logging

/-- The level the script passes to `logging.basicConfig` on line 6:
`logging.DEBUG`. -/
def configuredLevel : Nat := logging.DEBUG

/-- The five standard message levels of the Python logging framework
(diagnostic records are emitted at one of these levels). -/
def standardMessageLevels : List Nat :=
  [logging.DEBUG, logging.INFO, logging.WARNING, logging.ERROR, logging.CRITICAL]

/-- Python logging semantics: a record with level `msgLevel` passes a logger
configured at level `configured` iff `configured ≤ msgLevel`
(`Logger.isEnabledFor`). -/
def levelEnabled (configured msgLevel : Nat) : Bool :=
  Nat.ble configured msgLevel

/-- The template-family selector the script uses on line 7: the method name
`node_library` of `gcp.CommonTemplates`. -/
def node_libraryFamily : String := "node_library"

/-- Modelled from the spec: the "generic library" template-family selector the
spec names in section 4.1 step 2 and in its testable properties. Written from
the spec's words, to be compared with `node_libraryFamily`, which is written
from the source. -/
def specFamilySelector : String := "generic library"

/-- The path segment appended on line 8: `templates / ".kokoro"`. -/
def kokoroDir : String := ".kokoro"

/-- Observable calls the script makes, in the order it makes them.
`constructCommonTemplates` is `gcp.CommonTemplates()` (line 5),
`basicConfig` is `logging.basicConfig(level=...)` (line 6),
`requestTemplates` is the `common_templates.node_library()` method call
(line 7, carrying the family selector), and `callCopy` is
`s.copy(...)` (line 8, carrying the path argument as a segment list). -/
inductive Event where
  | constructCommonTemplates : Event
  | basicConfig (level : Nat) : Event
  | requestTemplates (family : String) : Event
  | callCopy (path : List String) : Event
deriving DecidableEq

/-- Environment modelling the external library (synthtool), an opaque
collaborator: each field gives the outcome of one library call.
`Except.error e` means the call raises exception `e`;
`nodeLibraryResult`'s `ok` value is the rendered-template root path (the
`templates` Path object) as a list of segments. -/
structure Env where
  commonTemplatesResult : Except String Unit
  nodeLibraryResult : Except String (List String)
  copyResult : List String → Except String Unit

/-- The module body of `synth.py` as a trace semantics: runs the four
statements in source order, records each external call as an `Event`, and
stops at (and propagates) the first exception raised. Returns the list of
calls made together with the script's outcome. -/
def runSynth (env : Env) : List Event × Except String Unit :=
  -- line 5: common_templates = gcp.CommonTemplates()
  match env.commonTemplatesResult with
  | .error e => ([Event.constructCommonTemplates], .error e)
  | .ok _ =>
    -- line 6: logging.basicConfig(level=logging.DEBUG)
    -- line 7: templates = common_templates.node_library()
    match env.nodeLibraryResult with
    | .error e =>
      ([Event.constructCommonTemplates, Event.basicConfig configuredLevel,
        Event.requestTemplates node_libraryFamily], .error e)
    | .ok templates =>
      -- line 8: s.copy(templates / ".kokoro")
      let path := templates ++ [kokoroDir]
      ([Event.constructCommonTemplates, Event.basicConfig configuredLevel,
        Event.requestTemplates node_libraryFamily, Event.callCopy path],
       env.copyResult path)

/-- The sequence of external calls a run of the script makes. -/
def trace (env : Env) : List Event :=
  (runSynth env).1

/-- The outcome of a run: `ok` on success, the propagated exception otherwise. -/
def result (env : Env) : Except String Unit :=
  (runSynth env).2

/-- Process exit code of a run: 0 on success, the default nonzero failure
code (modelled as 1) when an uncaught exception terminates the process. -/
def exitCode (env : Env) : Nat :=
  match result env with
  | .ok _ => 0
  | .error _ => 1

/-- Recognizes the provider-construction call. -/
def isConstruct : Event → Bool
  | .constructCommonTemplates => true
  | _ => false

/-- Recognizes the logging-configuration call. -/
def isBasicConfig : Event → Bool
  | .basicConfig _ => true
  | _ => false

/-- Recognizes the template-rendering (family-request) call. -/
def isRequest : Event → Bool
  | .requestTemplates _ => true
  | _ => false

/-- Recognizes the copy call. -/
def isCopy : Event → Bool
  | .callCopy _ => true
  | _ => false

/-- Number of events in a trace satisfying `p`. -/
def countE (p : Event → Bool) : List Event → Nat
  | [] => 0
  | e :: l => (if p e then 1 else 0) + countE p l

/-- Whether some event of the trace satisfies `p`. -/
def containsE (p : Event → Bool) (l : List Event) : Bool :=
  l.any p

/-- Index of the first event satisfying `p` (length of the list when none
does), used to state ordering properties of traces. -/
def firstIdx (p : Event → Bool) : List Event → Nat
  | [] => 0
  | e :: l => if p e then 0 else firstIdx p l + 1

/-- The template-family selectors passed to the provider during a run. -/
def familiesRequested (t : List Event) : List String :=
  t.filterMap fun e =>
    match e with
    | .requestTemplates f => some f
    | _ => none

/-- Modelled from the spec (the copy's overwrite semantics live in the
external library, not in `src/`): `s.copy(p)` writes into the invoking
repository only under the directory named by the final segment of its source
path `p` (spec sections 4.1 step 3 and 6: the output artifact is a directory
named after the copied subtree, written into the current working directory).
This gives, per trace, the repository directories written. -/
def repoWriteDirs (t : List Event) : List String :=
  t.filterMap fun e =>
    match e with
    | .callCopy p => p.getLast?
    | _ => none

/-- A concrete fully-successful environment: provider construction succeeds,
rendering returns root `["rendered"]`, copy succeeds. -/
def envOk : Env :=
  ⟨Except.ok (), Except.ok ["rendered"], fun _ => Except.ok ()⟩

/-- Python statement AST, restricted to what is needed: the four concrete
statements of the module body, plus branching, loop and try constructors
(which the script never uses) so that straight-line claims are contentful. -/
inductive Stmt where
  | assignCommonTemplates : Stmt
  | configLogging (level : Nat) : Stmt
  | assignTemplates : Stmt
  | copyKokoro : Stmt
  | ifStmt (cond : String) (thenBranch elseBranch : List Stmt) : Stmt
  | whileStmt (cond : String) (body : List Stmt) : Stmt
  | tryStmt (body handler : List Stmt) : Stmt

/-- The executable statements of the module body of `synth.py` (lines 5-8,
after the three imports), in source order. -/
def moduleBody : List Stmt :=
  [Stmt.assignCommonTemplates, Stmt.configLogging configuredLevel,
   Stmt.assignTemplates, Stmt.copyKokoro]

/-- A statement is straight-line when it is a plain assignment or expression
statement: no branching, no loop, no exception handler. -/
def isStraightLine : Stmt → Bool
  | .ifStmt _ _ _ => false
  | .whileStmt _ _ => false
  | .tryStmt _ _ => false
  | _ => true

/-- Recognizes the copy statement. -/
def isCopyStmt : Stmt → Bool
  | .copyKokoro => true
  | _ => false

/-- Variables a statement reads: line 7 reads `common_templates`, line 8
reads `templates`; the other two statements read no script variable. -/
def readsVars : Stmt → List String
  | .assignTemplates => ["common_templates"]
  | .copyKokoro => ["templates"]
  | _ => []

/-- The statements of the module body strictly after the copy statement. -/
def stmtsAfterCopy : List Stmt :=
  (moduleBody.dropWhile fun s => !(isCopyStmt s)).drop 1

/-- Script variables referenced by statements after the copy. -/
def varsReadAfterCopy : List String :=
  (stmtsAfterCopy.map readsVars).flatten

/-- Appending a final segment makes it the last one; used for the
`templates / ".kokoro"` path built on line 8. -/
lemma getLast?_append_singleton (l : List String) (a : String) :
    (l ++ [a]).getLast? = some a := by
  induction l with
  | nil => rfl
  | cons b l ih =>
    cases l with
    | nil => rfl
    | cons c l => simpa using ih

/-- C1 counterexample: in a concrete successful run both calls occur, yet the
logging-configuration call does not precede the provider-construction call
(its first index is not smaller). -/
theorem logging_not_before_construction :
    containsE isBasicConfig (trace envOk) = true ∧
    containsE isConstruct (trace envOk) = true ∧
    ¬ firstIdx isBasicConfig (trace envOk) < firstIdx isConstruct (trace envOk) := by
  decide

/-- C1 (amended): in every execution the provider-construction call (line 5)
precedes the logging-configuration call (line 6): whenever the logging call
occurs in the trace, the construction call occurs strictly earlier. -/
theorem construction_before_logging (env : Env)
    (h : containsE isBasicConfig (trace env) = true) :
    firstIdx isConstruct (trace env) < firstIdx isBasicConfig (trace env) := by
  obtain ⟨ct, nl, cp⟩ := env
  cases ct with
  | error e =>
    simp [trace, runSynth, containsE, isBasicConfig] at h
  | ok u =>
    cases nl with
    | error e =>
      simp [trace, runSynth, firstIdx, isConstruct, isBasicConfig]
    | ok ts =>
      simp [trace, runSynth, firstIdx, isConstruct, isBasicConfig]

/-- C1 witness: the amended ordering at the concrete environment `envOk`. -/
theorem construction_before_logging_witness :
    firstIdx isConstruct (trace envOk) < firstIdx isBasicConfig (trace envOk) :=
  construction_before_logging envOk (by decide)

/-- C2 counterexample: in a concrete run the single family selector requested
from the provider is `node_library`, and that selector is not the
"generic library" selector of the spec. -/
theorem requested_family_not_generic :
    familiesRequested (trace envOk) = [node_libraryFamily] ∧
    ¬ node_libraryFamily = specFamilySelector := by
  decide

/-- C2 (amended): every run calls the provider-construction function exactly
once, and every template family requested from the provider is the
`node_library` family. -/
theorem provider_constructed_once_family_node_library (env : Env) :
    countE isConstruct (trace env) = 1 ∧
    ∀ f, f ∈ familiesRequested (trace env) → f = node_libraryFamily := by
  obtain ⟨ct, nl, cp⟩ := env
  cases ct with
  | error e =>
    constructor
    · simp [trace, runSynth, countE, isConstruct]
    · intro f hf
      simp [trace, runSynth, familiesRequested] at hf
  | ok u =>
    cases nl with
    | error e =>
      constructor
      · simp [trace, runSynth, countE, isConstruct]
      · intro f hf
        simp [trace, runSynth, familiesRequested] at hf
        exact hf
    | ok ts =>
      constructor
      · simp [trace, runSynth, countE, isConstruct]
      · intro f hf
        simp [trace, runSynth, familiesRequested] at hf
        exact hf

/-- C2 witness: the amended claim instantiated at the concrete environment
`envOk` and the selector actually found in its trace. -/
theorem provider_constructed_once_family_node_library_witness :
    countE isConstruct (trace envOk) = 1 ∧ "node_library" = node_libraryFamily :=
  ⟨(provider_constructed_once_family_node_library envOk).1,
   (provider_constructed_once_family_node_library envOk).2 "node_library" (by decide)⟩

/-- C3: in any run reaching the copy (provider construction and rendering did
not raise), the copy operation is called exactly once, and its path argument
is the rendered-template root joined with `.kokoro`, whose final segment is
`.kokoro`. (In a run where an earlier call raises, the copy is never reached;
see the claim on early failures.) -/
theorem copy_called_once_with_kokoro (env : Env) (ts : List String)
    (hct : env.commonTemplatesResult = Except.ok ())
    (hnl : env.nodeLibraryResult = Except.ok ts) :
    countE isCopy (trace env) = 1 ∧
    ∀ p, Event.callCopy p ∈ trace env →
      p = ts ++ [kokoroDir] ∧ p.getLast? = some kokoroDir := by
  obtain ⟨ct, nl, cp⟩ := env
  simp only at hct hnl
  subst hct; subst hnl
  constructor
  · simp [trace, runSynth, countE, isCopy]
  · intro p hp
    simp [trace, runSynth] at hp
    exact ⟨hp, hp ▸ getLast?_append_singleton ts kokoroDir⟩

/-- C3 witness: the copy-once property at the concrete environment `envOk`. -/
theorem copy_called_once_with_kokoro_witness :
    countE isCopy (trace envOk) = 1 ∧
    ["rendered", ".kokoro"] = ["rendered"] ++ [kokoroDir] ∧
    (["rendered", ".kokoro"] : List String).getLast? = some kokoroDir :=
  ⟨(copy_called_once_with_kokoro envOk ["rendered"] rfl rfl).1,
   (copy_called_once_with_kokoro envOk ["rendered"] rfl rfl).2
     ["rendered", ".kokoro"] (by decide)⟩

/-- C4: in every execution in which the copy operation is invoked, the
logging-configuration call occurs strictly before it in the trace. -/
theorem logging_before_copy (env : Env) (p : List String)
    (h : Event.callCopy p ∈ trace env) :
    firstIdx isBasicConfig (trace env) < firstIdx isCopy (trace env) := by
  obtain ⟨ct, nl, cp⟩ := env
  cases ct with
  | error e => simp [trace, runSynth] at h
  | ok u =>
    cases nl with
    | error e => simp [trace, runSynth] at h
    | ok ts => simp [trace, runSynth, firstIdx, isBasicConfig, isCopy]

/-- C4 witness: the ordering at the concrete environment `envOk`, whose trace
contains the copy call. -/
theorem logging_before_copy_witness :
    firstIdx isBasicConfig (trace envOk) < firstIdx isCopy (trace envOk) :=
  logging_before_copy envOk ["rendered", ".kokoro"] (by decide)

/-- C5: the script catches nothing. Whichever library call raises first
(provider construction, rendering, or the copy), the run's result is that
same exception, unmodified, and the process exit code is nonzero. -/
theorem failures_propagate (env : Env) :
    (∀ e, env.commonTemplatesResult = Except.error e →
      result env = Except.error e ∧ exitCode env ≠ 0) ∧
    (∀ e, env.commonTemplatesResult = Except.ok () →
      env.nodeLibraryResult = Except.error e →
      result env = Except.error e ∧ exitCode env ≠ 0) ∧
    (∀ e ts, env.commonTemplatesResult = Except.ok () →
      env.nodeLibraryResult = Except.ok ts →
      env.copyResult (ts ++ [kokoroDir]) = Except.error e →
      result env = Except.error e ∧ exitCode env ≠ 0) := by
  obtain ⟨ct, nl, cp⟩ := env
  refine ⟨?_, ?_, ?_⟩
  · intro e he
    simp only at he
    subst he
    exact ⟨rfl, by simp [exitCode, result, runSynth]⟩
  · intro e hct hnl
    simp only at hct hnl
    subst hct; subst hnl
    exact ⟨rfl, by simp [exitCode, result, runSynth]⟩
  · intro e ts hct hnl hcp
    simp only at hct hnl hcp
    subst hct; subst hnl
    constructor
    · simp [result, runSynth, hcp]
    · simp [exitCode, result, runSynth, hcp]

/-- C5 witness: a concrete environment whose copy call raises
`"copy failed"`; the script's result is that very exception and the exit
code is nonzero. -/
theorem failures_propagate_witness :
    result ⟨Except.ok (), Except.ok ["rendered"], fun _ => Except.error "copy failed"⟩ =
      Except.error "copy failed" ∧
    exitCode ⟨Except.ok (), Except.ok ["rendered"], fun _ => Except.error "copy failed"⟩ ≠ 0 :=
  (failures_propagate
    ⟨Except.ok (), Except.ok ["rendered"], fun _ => Except.error "copy failed"⟩).2.2
    "copy failed" ["rendered"] rfl rfl rfl

/-- C6: the verbosity configured on line 6 is `logging.DEBUG`, the most
verbose standard level: with it, every standard diagnostic message level
(debug included) is enabled, and the configured-level event recorded in a
successful run carries exactly this level. -/
theorem logging_level_most_verbose :
    configuredLevel = logging.DEBUG ∧
    standardMessageLevels.all (fun l => levelEnabled configuredLevel l) = true ∧
    Event.basicConfig configuredLevel ∈ trace envOk := by
  decide

/-- C7 counterexample: the module body does not consist of three statements
(it has four: the assignment on line 5, the logging call on line 6, the
assignment on line 7, and the copy call on line 8). -/
theorem module_body_not_three_statements :
    ¬ moduleBody.length = 3 := by
  decide

/-- C7 (amended): the script's control flow consists of exactly four
statements executed in a straight line: every statement of the module body is
a plain assignment or call, with no branching, no loop, no exception handler
and hence no retry. -/
theorem module_body_four_straightline_statements :
    moduleBody.length = 4 ∧ moduleBody.all isStraightLine = true :=
  ⟨rfl, rfl⟩

/-- C8: the copy statement is the last statement of the module body, so no
statement after it exists and in particular neither the template-provider
handle (`common_templates`) nor the rendered-template path (`templates`) is
referenced after the copy: the script holds no state once the copy
completes. -/
theorem no_state_after_copy :
    moduleBody.getLast? = some Stmt.copyKokoro ∧
    stmtsAfterCopy = [] ∧
    varsReadAfterCopy = [] :=
  ⟨rfl, rfl, rfl⟩

/-- C9: in every run, each repository directory written by the script's calls
is `.kokoro`: the only write-capable call is the copy, and its source path's
final segment is `.kokoro`. -/
theorem writes_only_under_kokoro (env : Env) (d : String)
    (h : d ∈ repoWriteDirs (trace env)) :
    d = kokoroDir := by
  obtain ⟨ct, nl, cp⟩ := env
  cases ct with
  | error e => simp [trace, runSynth, repoWriteDirs] at h
  | ok u =>
    cases nl with
    | error e => simp [trace, runSynth, repoWriteDirs] at h
    | ok ts =>
      simp [trace, runSynth, repoWriteDirs,
        getLast?_append_singleton ts kokoroDir] at h
      exact h

/-- C9 witness: the write-target property at the concrete environment
`envOk`, whose single write target is `.kokoro`. -/
theorem writes_only_under_kokoro_witness :
    (".kokoro" : String) = kokoroDir :=
  writes_only_under_kokoro envOk ".kokoro" (by decide)

/-- C10: if provider construction or template rendering raises, the copy
operation is never invoked: the trace of such a run contains no copy call. -/
theorem copy_not_invoked_on_early_failure (env : Env)
    (h : (∃ e, env.commonTemplatesResult = Except.error e) ∨
         (∃ e, env.nodeLibraryResult = Except.error e)) :
    countE isCopy (trace env) = 0 := by
  obtain ⟨ct, nl, cp⟩ := env
  rcases h with ⟨e, he⟩ | ⟨e, he⟩
  · simp only at he
    subst he
    simp [trace, runSynth, countE, isCopy]
  · simp only at he
    subst he
    cases ct with
    | error e2 => simp [trace, runSynth, countE, isCopy]
    | ok u => simp [trace, runSynth, countE, isCopy]

/-- C10 witness: a concrete environment whose rendering call raises; its
trace contains no copy call. -/
theorem copy_not_invoked_on_early_failure_witness :
    countE isCopy
      (trace ⟨Except.ok (), Except.error "render failed", fun _ => Except.ok ()⟩) = 0 :=
  copy_not_invoked_on_early_failure
    ⟨Except.ok (), Except.error "render failed", fun _ => Except.ok ()⟩
    (Or.inr ⟨"render failed", rfl⟩)
